import Mathlib

/-!
Verification of the process/PTY lifecycle core of the `betterprocs`
supervisor, as a shallow embedding in Lean 4.

The embedding follows `src/process/types.rs`, `src/process/handle.rs`,
`src/process/manager.rs` and `src/terminal/screen.rs`.  OS interactions
(PTY allocation, child spawn, wait/try_wait, the reader thread and its
channel) are modelled by an oracle record `OsOracle` holding the outcomes
the OS would report; the handle state carries the four resource fields as
`Option` values exactly as the Rust struct does.  The `vt100` dependency
is modelled only as far as the source relies on it: its screen stores a
scrollback line count and `set_scrollback` clamps a requested offset to
that count (per the comment in `screen.rs`); the number of lines a chunk
of output scrolls off into the scrollback is a parameter, since it
depends on terminal content that no claim examines.
-/

/-- Mirror of `ProcessStatus` in `src/process/types.rs`. -/
inductive ProcessStatus where
  | NotStarted : ProcessStatus
  | Running (pid : Nat) : ProcessStatus
  | Stopped (exit_code : Int) : ProcessStatus
  | Crashed : ProcessStatus
deriving DecidableEq, Repr

/-- Mirror of `ProcessStatus::is_running`. -/
def ProcessStatus.is_running : ProcessStatus → Bool
  | .Running _ => true
  | _ => false

/-- Mirror of `ProcessStatus::sort_order`: Running=0, Crashed=1, Stopped=2, NotStarted=3. -/
def ProcessStatus.sort_order : ProcessStatus → Nat
  | .Running _ => 0
  | .Crashed => 1
  | .Stopped _ => 2
  | .NotStarted => 3

/-- Mirror of `ProcessConfig` in `src/process/types.rs` (paths and env as plain data). -/
structure ProcessConfig where
  name : String
  command : String
  cmd : Option (List String)
  cwd : Option String
  env : List (String × String)
  autostart : Bool
  autorestart : Bool
  port : Option Nat
deriving DecidableEq, Repr

/-- Mirror of `TerminalScreen` in `src/terminal/screen.rs`.  The `vt100::Parser`
is modelled by the two fields the source observes: `scrollbackLen`, the number
of lines currently held in the scrollback, and `capacity`, the scrollback
limit passed to `Parser::new`. -/
structure TerminalScreen where
  scrollbackLen : Nat
  capacity : Nat
  scroll_offset : Nat
  rows : Nat
  cols : Nat
deriving DecidableEq, Repr

/-- Mirror of `TerminalScreen::new(rows, cols, scrollback)`: a fresh parser has
an empty scrollback and offset 0. -/
def TerminalScreen.new (rows cols scrollback : Nat) : TerminalScreen :=
  { scrollbackLen := 0, capacity := scrollback, scroll_offset := 0, rows := rows, cols := cols }

/-- Mirror of `TerminalScreen::process_bytes`.  The `vt100` parser may push
lines that scroll off the grid into the scrollback, bounded by its capacity;
`linesScrolledOff` is that (content-dependent) count, supplied by the oracle. -/
def TerminalScreen.process_bytes (s : TerminalScreen) (_data : List Nat)
    (linesScrolledOff : Nat) : TerminalScreen :=
  { s with scrollbackLen := min (s.scrollbackLen + linesScrolledOff) s.capacity }

/-- Mirror of `TerminalScreen::resize(rows, cols)`: stores exactly the requested
size and forwards it to `vt100`'s `set_size`. -/
def TerminalScreen.resize (s : TerminalScreen) (rows cols : Nat) : TerminalScreen :=
  { s with rows := rows, cols := cols }

/-- Mirror of the private `TerminalScreen::apply_scroll`: `set_scrollback`
clamps to the current scrollback length, and the clamped value is read back. -/
def TerminalScreen.apply_scroll (s : TerminalScreen) : TerminalScreen :=
  { s with scroll_offset := min s.scroll_offset s.scrollbackLen }

/-- Mirror of `TerminalScreen::scroll_up(n)`. -/
def TerminalScreen.scroll_up (s : TerminalScreen) (n : Nat) : TerminalScreen :=
  TerminalScreen.apply_scroll { s with scroll_offset := s.scroll_offset + n }

/-- Mirror of `TerminalScreen::scroll_down(n)` (`saturating_sub` is `Nat` subtraction). -/
def TerminalScreen.scroll_down (s : TerminalScreen) (n : Nat) : TerminalScreen :=
  TerminalScreen.apply_scroll { s with scroll_offset := s.scroll_offset - n }

/-- Mirror of `TerminalScreen::scroll_to_bottom()`. -/
def TerminalScreen.scroll_to_bottom (s : TerminalScreen) : TerminalScreen :=
  TerminalScreen.apply_scroll { s with scroll_offset := 0 }

/-- Size recorded for the PTY master (the `rows`/`cols` of `PtySize`). -/
structure PtySize where
  rows : Nat
  cols : Nat
deriving DecidableEq, Repr

/-- Conversion performed by `exit_status.exit_code().try_into().unwrap_or(-1)`:
a `u32` converts to `i32` when it fits, and falls back to `-1` otherwise. -/
def i32OfU32 (c : Nat) : Int :=
  if c < 2 ^ 31 then (c : Int) else -1

/-- Outcomes the OS would report during one handle operation: whether PTY
allocation, child spawn and reader cloning succeed, the reported process id,
the result of a blocking `wait`, the result of a non-blocking `try_wait`
(`some code` for `Ok(Some(status))`, `none` otherwise), and the chunks
buffered on the output channel, each paired with the number of lines it
scrolls off into the scrollback. -/
structure OsOracle where
  ptyOk : Bool
  spawnOk : Bool
  cloneReaderOk : Bool
  processId : Option Nat
  waitResult : Except Unit Nat
  tryWaitResult : Option Nat
  pendingChunks : List (List Nat × Nat)

/-- Mirror of `ProcessHandle` in `src/process/handle.rs`.  The child, the
PTY master, the channel receiver and the reader-thread join handle are the
four OS-resource fields; the child and thread carry no model state of their
own (their behaviour comes from the oracle), the master records its size. -/
structure ProcessHandle where
  config : ProcessConfig
  status : ProcessStatus
  screen : TerminalScreen
  child : Option Unit
  master_pty : Option PtySize
  output_rx : Option Unit
  reader_thread : Option Unit
deriving DecidableEq, Repr

/-- The error points of `ProcessHandle::spawn`, in source order. -/
inductive SpawnError where
  | pty : SpawnError
  | spawnCommand : SpawnError
  | cloneReader : SpawnError
deriving DecidableEq, Repr

/-- Mirror of the command construction in `ProcessHandle::spawn`: an explicit
argument vector is executed directly, otherwise the command string runs
through `sh -c`. -/
def buildCommand (c : ProcessConfig) : List String :=
  match c.cmd with
  | some args => args
  | none => ["sh", "-c", c.command]

/-- Mirror of `ProcessHandle::stop(graceful)`.  Signal sending (terminate,
liveness probe, force kill) does not change the handle state and is elided;
what remains is the reap: when `Running`, a successful `wait` yields
`Stopped{exit_code}`, a failed `wait` yields `Crashed`, and all four resource
fields are cleared; otherwise the handle is untouched.  The Rust function
always returns `Ok(())`, so no error component is modelled. -/
def ProcessHandle.stop (h : ProcessHandle) (o : OsOracle) (_graceful : Bool) : ProcessHandle :=
  match h.status with
  | .Running _ =>
    let h1 :=
      match h.child with
      | some _ =>
        match o.waitResult with
        | .ok code => { h with status := ProcessStatus.Stopped (i32OfU32 code) }
        | .error _ => { h with status := ProcessStatus.Crashed }
      | none => h
    { h1 with child := none, master_pty := none, output_rx := none, reader_thread := none }
  | _ => h

/-- Mirror of `ProcessHandle::spawn`.  A running handle is first stopped
gracefully; then the PTY is opened at the screen's current size, the command
is built and spawned, the reader is cloned and its thread started; on success
all four resource fields are set together, the status becomes
`Running{pid}` with `pid = process_id().unwrap_or(0)`, and the screen
scrolls to the bottom.  Each failure returns the error with no further
state change. -/
def ProcessHandle.spawn (h : ProcessHandle) (o : OsOracle) :
    ProcessHandle × Option SpawnError :=
  let h := if h.status.is_running then h.stop o true else h
  if o.ptyOk = false then
    (h, some SpawnError.pty)
  else
    let _cmd := buildCommand h.config
    if o.spawnOk = false then
      (h, some SpawnError.spawnCommand)
    else
      let pid := o.processId.getD 0
      if o.cloneReaderOk = false then
        (h, some SpawnError.cloneReader)
      else
        ({ h with
            child := some ()
            master_pty := some { rows := h.screen.rows, cols := h.screen.cols }
            output_rx := some ()
            reader_thread := some ()
            status := ProcessStatus.Running pid
            screen := h.screen.scroll_to_bottom }, none)

/-- Mirror of `ProcessHandle::restart`: graceful stop, then spawn (the stop
cannot fail, so only the spawn error propagates). -/
def ProcessHandle.restart (h : ProcessHandle) (o : OsOracle) :
    ProcessHandle × Option SpawnError :=
  (h.stop o true).spawn o

/-- Mirror of `ProcessHandle::drain_output`.  While the channel receiver is
present, every buffered chunk is fed to the screen in order and output is
flagged; then, while the child is present, a completed `try_wait` classifies
exit code 0 as `Stopped{0}` and any other code as `Crashed`, clearing the
child and the PTY master (and only those two fields). -/
def ProcessHandle.drain_output (h : ProcessHandle) (o : OsOracle) :
    ProcessHandle × Bool :=
  let fed :=
    match h.output_rx with
    | some _ =>
      let scr := o.pendingChunks.foldl
        (fun (s : TerminalScreen) (ch : List Nat × Nat) => s.process_bytes ch.1 ch.2) h.screen
      ({ h with screen := scr }, decide (o.pendingChunks ≠ []))
    | none => (h, false)
  let h1 := fed.1
  let had_output := fed.2
  match h1.child with
  | some _ =>
    match o.tryWaitResult with
    | some code =>
      let c := i32OfU32 code
      let h2 :=
        if c = 0 then { h1 with status := ProcessStatus.Stopped c }
        else { h1 with status := ProcessStatus.Crashed }
      ({ h2 with child := none, master_pty := none }, had_output)
    | none => (h1, had_output)
  | none => (h1, had_output)

/-- Mirror of `ProcessHandle::resize_pty`: the screen only grows (each axis is
clamped below by its current value), while the live PTY, when open, is resized
to exactly the requested size. -/
def ProcessHandle.resize_pty (h : ProcessHandle) (rows cols : Nat) : ProcessHandle :=
  let screen_cols := max h.screen.cols cols
  let screen_rows := max h.screen.rows rows
  { h with
      screen := h.screen.resize screen_rows screen_cols
      master_pty := h.master_pty.map (fun _ => { rows := rows, cols := cols }) }

/-- The handle as initialised inside `ProcessHandle::new`, before the
autostart check: status `NotStarted`, a fresh screen with scrollback
capacity 10000, and no OS resources. -/
def ProcessHandle.initial (config : ProcessConfig) (rows cols : Nat) : ProcessHandle :=
  { config := config
    status := ProcessStatus.NotStarted
    screen := TerminalScreen.new rows cols 10000
    child := none
    master_pty := none
    output_rx := none
    reader_thread := none }

/-- Mirror of `ProcessHandle::new`: construct the handle, and when the config
has autostart set, spawn immediately, discarding any error (`let _ =
handle.spawn();`).  Construction itself cannot fail. -/
def ProcessHandle.new (config : ProcessConfig) (rows cols : Nat) (o : OsOracle) :
    ProcessHandle :=
  let handle := ProcessHandle.initial config rows cols
  if config.autostart then (handle.spawn o).1 else handle

/-- Mirror of `ProcessManager` in `src/process/manager.rs`. -/
structure ProcessManager where
  processes : List ProcessHandle

/-- Mirror of `ProcessManager::add_process`: construct and append. -/
def ProcessManager.add_process (m : ProcessManager) (config : ProcessConfig)
    (rows cols : Nat) (o : OsOracle) : ProcessManager :=
  { processes := m.processes ++ [ProcessHandle.new config rows cols o] }

/-- Mirror of `ProcessManager::check_autorestart`: each handle with the
autorestart flag that is not running is spawned again — unless it was never
started (`NotStarted`). -/
def ProcessManager.check_autorestart (m : ProcessManager) (o : OsOracle) : ProcessManager :=
  { processes := m.processes.map (fun h =>
      if h.config.autorestart && !h.status.is_running then
        if h.status ≠ ProcessStatus.NotStarted then (h.spawn o).1 else h
      else h) }

/-- The ordering `sort_by_key(|h| h.status.sort_order())` sorts by. -/
def statusLe (a b : ProcessHandle) : Prop :=
  a.status.sort_order ≤ b.status.sort_order

instance : DecidableRel statusLe := fun x y => Nat.decLe x.status.sort_order y.status.sort_order

instance : IsTotal ProcessHandle statusLe := ⟨fun x y => Nat.le_total x.status.sort_order y.status.sort_order⟩

instance : IsTrans ProcessHandle statusLe := ⟨fun _ _ _ => Nat.le_trans⟩

/-- Mirror of `Iterator::position` as used in `sort_by_status`. -/
def listPosition {α : Type} (p : α → Bool) : List α → Option Nat
  | [] => none
  | a :: l => if p a then some 0 else (listPosition p l).map (fun i => i + 1)

/-- Mirror of `ProcessManager::sort_by_status(selected)`: remember the selected
handle's name, stably sort by status priority, and return the new position of
that name (0 when the collection is empty or the name is not found). -/
def ProcessManager.sort_by_status (m : ProcessManager) (selected : Nat) :
    ProcessManager × Nat :=
  if m.processes.isEmpty then (m, 0)
  else
    let selected_name := (m.processes.get? selected).map (fun h => h.config.name)
    let sorted := List.insertionSort statusLe m.processes
    let idx := (selected_name.bind (fun name =>
      listPosition (fun h => decide (h.config.name = name)) sorted)).getD 0
    ({ processes := sorted }, idx)

/-- Mirror of `ProcessManager::resize_all`. -/
def ProcessManager.resize_all (m : ProcessManager) (rows cols : Nat) : ProcessManager :=
  { processes := m.processes.map (fun h => h.resize_pty rows cols) }

/-- A scroll call on the buffer, for reasoning about arbitrary call sequences. -/
inductive ScrollOp where
  | up (n : Nat) : ScrollOp
  | down (n : Nat) : ScrollOp
  | toBottom : ScrollOp
deriving DecidableEq, Repr

/-- Apply one scroll call. -/
def TerminalScreen.applyScrollOp (s : TerminalScreen) : ScrollOp → TerminalScreen
  | ScrollOp.up n => s.scroll_up n
  | ScrollOp.down n => s.scroll_down n
  | ScrollOp.toBottom => s.scroll_to_bottom

/-- Apply a sequence of scroll calls in order. -/
def TerminalScreen.applyScrollOps (s : TerminalScreen) (ops : List ScrollOp) : TerminalScreen :=
  ops.foldl TerminalScreen.applyScrollOp s

lemma applyScrollOp_offset_le (s : TerminalScreen) (op : ScrollOp) :
    (s.applyScrollOp op).scroll_offset ≤ (s.applyScrollOp op).scrollbackLen := by
  cases op <;>
    simp [TerminalScreen.applyScrollOp, TerminalScreen.scroll_up, TerminalScreen.scroll_down,
      TerminalScreen.scroll_to_bottom, TerminalScreen.apply_scroll]

lemma applyScrollOps_offset_le (ops : List ScrollOp) (s : TerminalScreen) (hne : ops ≠ []) :
    (s.applyScrollOps ops).scroll_offset ≤ (s.applyScrollOps ops).scrollbackLen := by
  induction ops generalizing s with
  | nil => exact absurd rfl hne
  | cons op rest ih =>
    cases rest with
    | nil => exact applyScrollOp_offset_le s op
    | cons op2 rest2 =>
      exact ih (s.applyScrollOp op) (by simp)

/-- C3 counterexample: `TerminalScreen.resize` called with a smaller size
stores the smaller size — it does not take the max with the current size,
and the grid shrinks from 24 rows to 10. -/
theorem screen_resize_shrinks_cex :
    ((TerminalScreen.new 24 80 10000).resize 10 20).rows = 10 ∧
    ((TerminalScreen.new 24 80 10000).resize 10 20).rows ≠
      max (TerminalScreen.new 24 80 10000).rows 10 := by
  decide

/-- C3 (amended): `TerminalScreen.resize` stores exactly the requested
dimensions (it can shrink); the never-shrink `max(current, requested)` rule
is applied one level up, by `ProcessHandle.resize_pty`, so the screen reached
through `resize_pty` never shrinks in either axis. -/
theorem screen_resize_exact_and_grow_in_resize_pty (s : TerminalScreen)
    (h : ProcessHandle) (rows cols : Nat) :
    (s.resize rows cols).rows = rows ∧ (s.resize rows cols).cols = cols ∧
    (h.resize_pty rows cols).screen.rows = max h.screen.rows rows ∧
    (h.resize_pty rows cols).screen.cols = max h.screen.cols cols :=
  ⟨rfl, rfl, rfl, rfl⟩

/-- C9: `resize_pty` never decreases the stored screen size below its pre-call
value in either axis, while the live PTY, when open, is resized to exactly the
requested size (and stays absent when absent). -/
theorem resize_pty_monotone_exact (h : ProcessHandle) (rows cols : Nat) :
    h.screen.rows ≤ (h.resize_pty rows cols).screen.rows ∧
    h.screen.cols ≤ (h.resize_pty rows cols).screen.cols ∧
    (h.resize_pty rows cols).master_pty =
      h.master_pty.map (fun _ => { rows := rows, cols := cols }) :=
  ⟨Nat.le_max_left _ _, Nat.le_max_left _ _, rfl⟩

/-- C4 counterexample: on a buffer with 6 scrollback lines and offset 5,
`scroll_up 4` (with 4 ≤ 6, the scrollback length) clamps at 6, so the
following `scroll_down 4` lands at offset 2 instead of the original 5. -/
theorem scroll_round_trip_cex :
    4 ≤ (((TerminalScreen.new 24 80 10000).process_bytes [] 6).scroll_up 5).scrollbackLen ∧
    (((TerminalScreen.new 24 80 10000).process_bytes [] 6).scroll_up 5).scroll_offset = 5 ∧
    (((((TerminalScreen.new 24 80 10000).process_bytes [] 6).scroll_up 5).scroll_up 4).scroll_down
        4).scroll_offset = 2 := by
  decide

/-- C4 (amended): `scroll_up n` followed by `scroll_down n` returns the offset
to its pre-call value whenever `offset + n` does not exceed the scrollback
length (so the upward clamp is not hit); and after any nonempty sequence of
scroll_up/scroll_down/scroll_to_bottom calls the stored offset lies within
`[0, scrollback_length]`. -/
theorem scroll_round_trip_and_clamp :
    (∀ (s : TerminalScreen) (n : Nat), s.scroll_offset + n ≤ s.scrollbackLen →
      ((s.scroll_up n).scroll_down n).scroll_offset = s.scroll_offset) ∧
    (∀ (s : TerminalScreen) (ops : List ScrollOp), ops ≠ [] →
      (s.applyScrollOps ops).scroll_offset ≤ (s.applyScrollOps ops).scrollbackLen) := by
  constructor
  · intro s n hle
    simp only [TerminalScreen.scroll_up, TerminalScreen.scroll_down, TerminalScreen.apply_scroll]
    omega
  · intro s ops hne
    exact applyScrollOps_offset_le ops s hne

/-- C4 witness: concrete instance of both conjuncts of
`scroll_round_trip_and_clamp`. -/
theorem scroll_round_trip_and_clamp_witness :
    ((((TerminalScreen.new 24 80 10000).process_bytes [] 6).scroll_up 2).scroll_down
        2).scroll_offset =
      ((TerminalScreen.new 24 80 10000).process_bytes [] 6).scroll_offset ∧
    (((TerminalScreen.new 24 80 10000).applyScrollOps
        [ScrollOp.up 3, ScrollOp.down 1]).scroll_offset ≤
      ((TerminalScreen.new 24 80 10000).applyScrollOps
        [ScrollOp.up 3, ScrollOp.down 1]).scrollbackLen) :=
  ⟨scroll_round_trip_and_clamp.1 ((TerminalScreen.new 24 80 10000).process_bytes [] 6) 2
      (by decide),
    scroll_round_trip_and_clamp.2 (TerminalScreen.new 24 80 10000)
      [ScrollOp.up 3, ScrollOp.down 1] (by decide)⟩

/-- A process configuration used for concrete instances. -/
def sampleConfig : ProcessConfig :=
  { name := "web", command := "sleep 100", cmd := none, cwd := none, env := [],
    autostart := false, autorestart := false, port := none }

/-- The sample configuration with the autostart flag set. -/
def autostartConfig : ProcessConfig :=
  { sampleConfig with autostart := true }

/-- An oracle on which every OS call succeeds and nothing is pending. -/
def okOracle : OsOracle :=
  { ptyOk := true, spawnOk := true, cloneReaderOk := true, processId := some 42,
    waitResult := Except.ok 0, tryWaitResult := none, pendingChunks := [] }

/-- Oracle on which the child reports no process id. -/
def noPidOracle : OsOracle := { okOracle with processId := none }

/-- Oracle on which PTY allocation fails. -/
def failPtyOracle : OsOracle := { okOracle with ptyOk := false }

/-- Oracle on which `try_wait` reports an exit with code 1. -/
def exitOneOracle : OsOracle := { okOracle with tryWaitResult := some 1 }

/-- Oracle on which `try_wait` reports an exit with code 0. -/
def exitZeroOracle : OsOracle := { okOracle with tryWaitResult := some 0 }

/-- Oracle on which a blocking `wait` reports exit code 3. -/
def waitThreeOracle : OsOracle := { okOracle with waitResult := Except.ok 3 }

/-- Oracle on which a blocking `wait` itself errors. -/
def failWaitOracle : OsOracle := { okOracle with waitResult := Except.error () }

/-- A handle in the state left by a successful spawn: running, with all four
OS-resource fields live. -/
def runningHandle : ProcessHandle :=
  { config := sampleConfig, status := ProcessStatus.Running 7,
    screen := TerminalScreen.new 24 80 10000, child := some (),
    master_pty := some { rows := 24, cols := 80 }, output_rx := some (),
    reader_thread := some () }

lemma spawn_eq_of_error (h : ProcessHandle) (o : OsOracle)
    (herr : (h.spawn o).2 ≠ none) :
    (h.spawn o).1 = if h.status.is_running then h.stop o true else h := by
  unfold ProcessHandle.spawn at herr ⊢
  cases hp : o.ptyOk <;> cases hsp : o.spawnOk <;> cases hc : o.cloneReaderOk <;>
    simp [hp, hsp, hc] at herr ⊢

lemma spawn_eq_of_ok (h : ProcessHandle) (o : OsOracle)
    (hok : (h.spawn o).2 = none) :
    (h.spawn o).1 =
      (let h1 := if h.status.is_running then h.stop o true else h
       { h1 with
          child := some ()
          master_pty := some { rows := h1.screen.rows, cols := h1.screen.cols }
          output_rx := some ()
          reader_thread := some ()
          status := ProcessStatus.Running (o.processId.getD 0)
          screen := h1.screen.scroll_to_bottom }) := by
  unfold ProcessHandle.spawn at hok ⊢
  cases hp : o.ptyOk <;> cases hsp : o.spawnOk <;> cases hc : o.cloneReaderOk <;>
    simp [hp, hsp, hc] at hok ⊢

lemma stop_eq_of_not_running (h : ProcessHandle) (o : OsOracle) (g : Bool)
    (hnr : h.status.is_running = false) : h.stop o g = h := by
  unfold ProcessHandle.stop
  cases hst : h.status <;> simp_all [ProcessStatus.is_running]

/-- C5 counterexample: when the OS reports no process id, a successful spawn
records `Running{0}` — `pid > 0` does not hold. -/
theorem spawn_success_pid_zero_cex :
    ((ProcessHandle.initial sampleConfig 24 80).spawn noPidOracle).2 = none ∧
    ((ProcessHandle.initial sampleConfig 24 80).spawn noPidOracle).1.status =
      ProcessStatus.Running 0 ∧
    ¬ ∃ pid, 0 < pid ∧
      ((ProcessHandle.initial sampleConfig 24 80).spawn noPidOracle).1.status =
        ProcessStatus.Running pid := by
  refine ⟨by decide, by decide, ?_⟩
  rintro ⟨pid, hp, hs⟩
  have h0 : ProcessStatus.Running 0 = ProcessStatus.Running pid := by
    rw [← hs]; decide
  injection h0 with h
  omega

/-- C5 (amended): whenever `spawn()` returns success, the status is
`Running{pid}` where `pid` is the OS-reported process id (0 when the OS
reports none), and the buffer's scroll offset is 0; `pid > 0` holds exactly
when the reported id is positive. -/
theorem spawn_success_running_and_scroll_reset (h : ProcessHandle) (o : OsOracle)
    (hok : (h.spawn o).2 = none) :
    (h.spawn o).1.status = ProcessStatus.Running (o.processId.getD 0) ∧
    (h.spawn o).1.screen.scroll_offset = 0 := by
  rw [spawn_eq_of_ok h o hok]
  exact ⟨rfl, by simp [TerminalScreen.scroll_to_bottom, TerminalScreen.apply_scroll]⟩

/-- C5 witness: instance of `spawn_success_running_and_scroll_reset` on a
concrete handle and oracle. -/
theorem spawn_success_running_and_scroll_reset_witness :
    ((ProcessHandle.initial sampleConfig 24 80).spawn okOracle).1.status =
      ProcessStatus.Running (okOracle.processId.getD 0) ∧
    ((ProcessHandle.initial sampleConfig 24 80).spawn okOracle).1.screen.scroll_offset = 0 :=
  spawn_success_running_and_scroll_reset (ProcessHandle.initial sampleConfig 24 80) okOracle
    (by decide)

/-- C8: when `spawn()` fails, the error is returned and the handle is exactly
the state it had at the point of failure: the state after the initial
graceful stop when it was running, the untouched entry state otherwise — in
particular the status is unchanged, and nothing in the definition retries. -/
theorem spawn_error_atomic (h : ProcessHandle) (o : OsOracle) (e : SpawnError)
    (herr : (h.spawn o).2 = some e) :
    (h.spawn o).1 = (if h.status.is_running then h.stop o true else h) ∧
    (h.status.is_running = false → (h.spawn o).1 = h) := by
  have h1 := spawn_eq_of_error h o (by simp [herr])
  refine ⟨h1, fun hnr => ?_⟩
  rw [h1, if_neg (by simp [hnr])]

/-- C8 witness: instance of `spawn_error_atomic` on a concrete handle with a
failing PTY allocation. -/
theorem spawn_error_atomic_witness :
    ((ProcessHandle.initial sampleConfig 24 80).spawn failPtyOracle).1 =
      (if (ProcessHandle.initial sampleConfig 24 80).status.is_running then
        (ProcessHandle.initial sampleConfig 24 80).stop failPtyOracle true
      else ProcessHandle.initial sampleConfig 24 80) ∧
    ((ProcessHandle.initial sampleConfig 24 80).spawn failPtyOracle).1 =
      ProcessHandle.initial sampleConfig 24 80 :=
  ⟨(spawn_error_atomic (ProcessHandle.initial sampleConfig 24 80) failPtyOracle
      SpawnError.pty (by decide)).1,
    (spawn_error_atomic (ProcessHandle.initial sampleConfig 24 80) failPtyOracle
      SpawnError.pty (by decide)).2 (by decide)⟩

/-- C1 counterexample: a running handle whose child exited on its own with the
nonzero code 1 is classified `Crashed` by `drain_output`, not
`Stopped{1}` as the claim states. -/
theorem drain_output_nonzero_exit_marks_crashed_cex :
    (runningHandle.drain_output exitOneOracle).1.status = ProcessStatus.Crashed ∧
    (runningHandle.drain_output exitOneOracle).1.status ≠ ProcessStatus.Stopped 1 := by
  decide

/-- C1 (amended): when `drain_output` detects an exit it classifies exit code 0
as `Stopped{0}` and every nonzero code as `Crashed`; it is `stop()` that
captures the exit code into `Stopped{exit_code}` for zero and nonzero codes
alike, reserving `Crashed` for a failed `wait`. -/
theorem exit_classification_drain_vs_stop :
    (∀ (h : ProcessHandle) (o : OsOracle) (c : Nat), h.child = some () →
      o.tryWaitResult = some c →
      (h.drain_output o).1.status =
        (if i32OfU32 c = 0 then ProcessStatus.Stopped 0 else ProcessStatus.Crashed)) ∧
    (∀ (h : ProcessHandle) (o : OsOracle) (g : Bool) (pid : Nat) (c : Nat),
      h.status = ProcessStatus.Running pid → h.child = some () →
      o.waitResult = Except.ok c →
      (h.stop o g).status = ProcessStatus.Stopped (i32OfU32 c)) ∧
    (∀ (h : ProcessHandle) (o : OsOracle) (g : Bool) (pid : Nat),
      h.status = ProcessStatus.Running pid → h.child = some () →
      o.waitResult = Except.error () →
      (h.stop o g).status = ProcessStatus.Crashed) := by
  refine ⟨?_, ?_, ?_⟩
  · intro h o c hchild htw
    unfold ProcessHandle.drain_output
    cases hrx : h.output_rx <;>
      · simp only [hrx, hchild, htw]
        split <;> simp_all
  · intro h o g pid c hst hchild hw
    unfold ProcessHandle.stop
    simp [hst, hchild, hw]
  · intro h o g pid hst hchild hw
    unfold ProcessHandle.stop
    simp [hst, hchild, hw]

/-- C1 witness: concrete instances of the three classification conjuncts. -/
theorem exit_classification_drain_vs_stop_witness :
    (runningHandle.drain_output exitZeroOracle).1.status =
      (if i32OfU32 0 = 0 then ProcessStatus.Stopped 0 else ProcessStatus.Crashed) ∧
    (runningHandle.stop waitThreeOracle true).status = ProcessStatus.Stopped (i32OfU32 3) ∧
    (runningHandle.stop failWaitOracle false).status = ProcessStatus.Crashed :=
  ⟨exit_classification_drain_vs_stop.1 runningHandle exitZeroOracle 0 rfl rfl,
    exit_classification_drain_vs_stop.2.1 runningHandle waitThreeOracle true 7 3 rfl rfl rfl,
    exit_classification_drain_vs_stop.2.2 runningHandle failWaitOracle false 7 rfl rfl rfl⟩

/-- All four OS-resource fields of a handle are present. -/
def allSome (h : ProcessHandle) : Prop :=
  h.child.isSome = true ∧ h.master_pty.isSome = true ∧
  h.output_rx.isSome = true ∧ h.reader_thread.isSome = true

/-- All four OS-resource fields of a handle are absent. -/
def allNone (h : ProcessHandle) : Prop :=
  h.child = none ∧ h.master_pty = none ∧ h.output_rx = none ∧ h.reader_thread = none

/-- The claimed invariant: the four OS-resource fields are all present or all
absent. -/
def resourcesTogether (h : ProcessHandle) : Prop := allSome h ∨ allNone h

instance (h : ProcessHandle) : Decidable (allSome h) := by
  unfold allSome; infer_instance

instance (h : ProcessHandle) : Decidable (allNone h) := by
  unfold allNone; infer_instance

instance (h : ProcessHandle) : Decidable (resourcesTogether h) := by
  unfold resourcesTogether; infer_instance

lemma stop_allNone_of_running (h : ProcessHandle) (o : OsOracle) (g : Bool)
    (hr : h.status.is_running = true) : allNone (h.stop o g) := by
  unfold ProcessHandle.stop allNone
  cases hst : h.status <;> simp_all [ProcessStatus.is_running]

/-- C2 counterexample: a handle with all four resource fields live whose child
has exited (reaped by `drain_output`) ends with the child and PTY master
cleared but the channel receiver and reader-thread handle still set — the
four fields are neither all `Some` nor all `None`. -/
theorem drain_output_partial_release_cex :
    (runningHandle.drain_output exitZeroOracle).1.child = none ∧
    (runningHandle.drain_output exitZeroOracle).1.output_rx = some () ∧
    ¬ resourcesTogether (runningHandle.drain_output exitZeroOracle).1 := by
  decide

/-- C2 (amended): the four OS-resource fields are set together by a successful
spawn and cleared together by `stop` on a running handle (and `spawn`,
`stop` and `restart` all preserve the all-or-none invariant); but
`drain_output`'s exit reap clears only the child handle and the PTY master,
leaving the channel receiver and reader-thread handle set, so the invariant
does not survive a `drain_output` reap. -/
theorem resource_fields_all_or_none :
    (∀ (h : ProcessHandle) (o : OsOracle), (h.spawn o).2 = none →
      allSome (h.spawn o).1) ∧
    (∀ (h : ProcessHandle) (o : OsOracle), resourcesTogether h →
      resourcesTogether (h.spawn o).1) ∧
    (∀ (h : ProcessHandle) (o : OsOracle) (g : Bool), h.status.is_running = true →
      allNone (h.stop o g)) ∧
    (∀ (h : ProcessHandle) (o : OsOracle) (g : Bool), h.status.is_running = false →
      h.stop o g = h) ∧
    (∀ (h : ProcessHandle) (o : OsOracle), resourcesTogether h →
      resourcesTogether (h.restart o).1) ∧
    (∀ (h : ProcessHandle) (o : OsOracle) (c : Nat), allSome h →
      o.tryWaitResult = some c →
      (h.drain_output o).1.child = none ∧ (h.drain_output o).1.master_pty = none ∧
      (h.drain_output o).1.output_rx.isSome = true ∧
      (h.drain_output o).1.reader_thread.isSome = true) := by
  have hspawnSome : ∀ (h : ProcessHandle) (o : OsOracle), (h.spawn o).2 = none →
      allSome (h.spawn o).1 := by
    intro h o hok
    rw [spawn_eq_of_ok h o hok]
    exact ⟨rfl, rfl, rfl, rfl⟩
  have hspawnInv : ∀ (h : ProcessHandle) (o : OsOracle), resourcesTogether h →
      resourcesTogether (h.spawn o).1 := by
    intro h o hinv
    cases hres : (h.spawn o).2 with
    | none => exact Or.inl (hspawnSome h o hres)
    | some e =>
      rw [spawn_eq_of_error h o (by simp [hres])]
      cases hr : h.status.is_running with
      | true => simpa [hr] using Or.inr (stop_allNone_of_running h o true hr)
      | false => simpa [hr] using hinv
  refine ⟨hspawnSome, hspawnInv, ?_, ?_, ?_, ?_⟩
  · exact stop_allNone_of_running
  · exact stop_eq_of_not_running
  · intro h o hinv
    unfold ProcessHandle.restart
    apply hspawnInv
    cases hr : h.status.is_running with
    | true => exact Or.inr (stop_allNone_of_running h o true hr)
    | false => rw [stop_eq_of_not_running h o true hr]; exact hinv
  · intro h o c hsome htw
    obtain ⟨hc, hm, hrx, hth⟩ := hsome
    rw [Option.isSome_iff_exists] at hc hrx hth
    obtain ⟨⟨⟩, hc⟩ := hc
    obtain ⟨⟨⟩, hrx⟩ := hrx
    obtain ⟨⟨⟩, hth⟩ := hth
    unfold ProcessHandle.drain_output
    simp only [hrx, hc, htw]
    split <;> simp [hrx, hth]

/-- C2 witness: instances of the conjuncts of `resource_fields_all_or_none`
on concrete handles and oracles. -/
theorem resource_fields_all_or_none_witness :
    allSome ((ProcessHandle.initial sampleConfig 24 80).spawn okOracle).1 ∧
    resourcesTogether (runningHandle.spawn okOracle).1 ∧
    allNone (runningHandle.stop okOracle true) ∧
    ((ProcessHandle.initial sampleConfig 24 80).stop okOracle true =
      ProcessHandle.initial sampleConfig 24 80) ∧
    resourcesTogether (runningHandle.restart okOracle).1 ∧
    ((runningHandle.drain_output exitZeroOracle).1.child = none ∧
      (runningHandle.drain_output exitZeroOracle).1.master_pty = none ∧
      (runningHandle.drain_output exitZeroOracle).1.output_rx.isSome = true ∧
      (runningHandle.drain_output exitZeroOracle).1.reader_thread.isSome = true) :=
  ⟨resource_fields_all_or_none.1 (ProcessHandle.initial sampleConfig 24 80) okOracle
      (by decide),
    resource_fields_all_or_none.2.1 runningHandle okOracle (by decide),
    resource_fields_all_or_none.2.2.1 runningHandle okOracle true (by decide),
    resource_fields_all_or_none.2.2.2.1 (ProcessHandle.initial sampleConfig 24 80)
      okOracle true (by decide),
    resource_fields_all_or_none.2.2.2.2.1 runningHandle okOracle (by decide),
    resource_fields_all_or_none.2.2.2.2.2 runningHandle exitZeroOracle 0 (by decide) rfl⟩

/-- C7: `check_autorestart` spawns exactly the handles whose autorestart flag
is set and whose status is neither `Running` nor `NotStarted`; in particular a
`NotStarted` handle is never spawned, even with autorestart set. -/
theorem check_autorestart_spec (m : ProcessManager) (o : OsOracle) (i : Nat)
    (h : ProcessHandle) (hi : m.processes.get? i = some h) :
    (m.check_autorestart o).processes.get? i = some
      (if h.config.autorestart = true ∧ h.status.is_running = false ∧
          h.status ≠ ProcessStatus.NotStarted
        then (h.spawn o).1 else h) ∧
    (h.status = ProcessStatus.NotStarted →
      (m.check_autorestart o).processes.get? i = some h) := by
  have key : ∀ hh : ProcessHandle,
      (if hh.config.autorestart && !hh.status.is_running then
        if hh.status ≠ ProcessStatus.NotStarted then (hh.spawn o).1 else hh
      else hh) =
      (if hh.config.autorestart = true ∧ hh.status.is_running = false ∧
          hh.status ≠ ProcessStatus.NotStarted then (hh.spawn o).1 else hh) := by
    intro hh
    by_cases hA : hh.config.autorestart = true <;>
      by_cases hR : hh.status.is_running = true <;>
      by_cases hN : hh.status = ProcessStatus.NotStarted <;>
      simp [hA, hR, hN]
  have hfst : (m.check_autorestart o).processes.get? i = some
      (if h.config.autorestart = true ∧ h.status.is_running = false ∧
          h.status ≠ ProcessStatus.NotStarted
        then (h.spawn o).1 else h) := by
    unfold ProcessManager.check_autorestart
    rw [List.get?_map, hi, Option.map_some', key h]
  refine ⟨hfst, fun hN => ?_⟩
  rw [hfst, if_neg (fun hcond => hcond.2.2 hN)]

/-- A stopped handle with no live resources, as left by a reap. -/
def stoppedHandle : ProcessHandle :=
  { config := { sampleConfig with autorestart := true },
    status := ProcessStatus.Stopped 0,
    screen := TerminalScreen.new 24 80 10000, child := none, master_pty := none,
    output_rx := none, reader_thread := none }

/-- A never-started handle whose autorestart flag is set. -/
def notStartedHandle : ProcessHandle :=
  { config := { sampleConfig with autorestart := true },
    status := ProcessStatus.NotStarted,
    screen := TerminalScreen.new 24 80 10000, child := none, master_pty := none,
    output_rx := none, reader_thread := none }

/-- C7 witness: on a concrete manager, the stopped autorestart handle is
spawned and the never-started autorestart handle is left untouched. -/
theorem check_autorestart_spec_witness :
    ((ProcessManager.mk [stoppedHandle, notStartedHandle]).check_autorestart
        okOracle).processes.get? 0 = some
      (if stoppedHandle.config.autorestart = true ∧
          stoppedHandle.status.is_running = false ∧
          stoppedHandle.status ≠ ProcessStatus.NotStarted
        then (stoppedHandle.spawn okOracle).1 else stoppedHandle) ∧
    ((ProcessManager.mk [stoppedHandle, notStartedHandle]).check_autorestart
        okOracle).processes.get? 1 = some notStartedHandle :=
  ⟨(check_autorestart_spec (ProcessManager.mk [stoppedHandle, notStartedHandle])
      okOracle 0 stoppedHandle rfl).1,
    (check_autorestart_spec (ProcessManager.mk [stoppedHandle, notStartedHandle])
      okOracle 1 notStartedHandle rfl).2 rfl⟩

/-- C10: constructing and adding a handle never fails: `add_process` always
appends the constructed handle, and when the config autostarts but the
internal spawn errors, the error is discarded and the appended handle stays
`NotStarted`. -/
theorem add_process_never_fails (m : ProcessManager) (config : ProcessConfig)
    (rows cols : Nat) (o : OsOracle) :
    (m.add_process config rows cols o).processes.length = m.processes.length + 1 ∧
    (m.add_process config rows cols o).processes.get? m.processes.length =
      some (ProcessHandle.new config rows cols o) ∧
    (((ProcessHandle.initial config rows cols).spawn o).2 ≠ none →
      (ProcessHandle.new config rows cols o).status = ProcessStatus.NotStarted) := by
  refine ⟨by simp [ProcessManager.add_process], ?_, ?_⟩
  · unfold ProcessManager.add_process
    exact List.get?_concat_length _ _
  · intro herr
    unfold ProcessHandle.new
    by_cases hA : config.autostart = true
    · rw [if_pos hA, spawn_eq_of_error _ _ herr,
        if_neg (by simp [ProcessHandle.initial, ProcessStatus.is_running])]
      rfl
    · rw [if_neg hA]
      rfl

/-- C10 witness: adding an autostart config under a failing PTY still appends
a handle, and that handle stays `NotStarted`. -/
theorem add_process_never_fails_witness :
    ((ProcessManager.mk []).add_process autostartConfig 24 80 failPtyOracle).processes.length =
      (ProcessManager.mk []).processes.length + 1 ∧
    ((ProcessManager.mk []).add_process autostartConfig 24 80 failPtyOracle).processes.get?
      (ProcessManager.mk []).processes.length =
      some (ProcessHandle.new autostartConfig 24 80 failPtyOracle) ∧
    (ProcessHandle.new autostartConfig 24 80 failPtyOracle).status =
      ProcessStatus.NotStarted :=
  ⟨(add_process_never_fails (ProcessManager.mk []) autostartConfig 24 80 failPtyOracle).1,
    (add_process_never_fails (ProcessManager.mk []) autostartConfig 24 80 failPtyOracle).2.1,
    (add_process_never_fails (ProcessManager.mk []) autostartConfig 24 80
      failPtyOracle).2.2 (by decide)⟩

lemma listPosition_isSome {α : Type} (p : α → Bool) (l : List α) (a : α)
    (ha : a ∈ l) (hpa : p a = true) : (listPosition p l).isSome = true := by
  induction l with
  | nil => cases ha
  | cons b t ih =>
    unfold listPosition
    by_cases hb : p b = true
    · simp [hb]
    · rw [if_neg hb]
      rcases List.mem_cons.mp ha with rfl | hat
      · exact absurd hpa hb
      · have hs := ih hat
        cases hpt : listPosition p t with
        | none => rw [hpt] at hs; cases hs
        | some j => simp [hpt]

lemma listPosition_spec {α : Type} (p : α → Bool) (l : List α) (i : Nat)
    (hi : listPosition p l = some i) : ∃ a, l.get? i = some a ∧ p a = true := by
  induction l generalizing i with
  | nil => cases hi
  | cons b t ih =>
    unfold listPosition at hi
    by_cases hb : p b = true
    · rw [if_pos hb] at hi
      obtain rfl : (0 : Nat) = i := Option.some_injective _ hi
      exact ⟨b, rfl, hb⟩
    · rw [if_neg hb] at hi
      obtain ⟨j, hj, rfl⟩ := Option.map_eq_some'.mp hi
      obtain ⟨a, ha, hpa⟩ := ih j hj
      exact ⟨a, ha, hpa⟩

lemma sort_by_status_processes (m : ProcessManager) (sel : Nat) :
    (m.sort_by_status sel).1.processes = List.insertionSort statusLe m.processes := by
  unfold ProcessManager.sort_by_status
  by_cases he : m.processes.isEmpty = true
  · rw [if_pos he, List.isEmpty_iff.mp he]
    rfl
  · rw [if_neg he]

/-- C6: `sort_by_status` is idempotent — on an already status-sorted sequence
it changes nothing, and re-sorting a sorted result is a no-op — and its
returned index points at a handle bearing the previously selected handle's
name whenever a previously selected handle exists, falling back to 0 when the
selected index was out of range (so no handle with its name can be located). -/
theorem sort_by_status_spec (m : ProcessManager) (sel sel2 : Nat) :
    (List.Sorted statusLe m.processes → (m.sort_by_status sel).1.processes = m.processes) ∧
    ((m.sort_by_status sel).1.sort_by_status sel2).1.processes =
      (m.sort_by_status sel).1.processes ∧
    (∀ h0, m.processes.get? sel = some h0 →
      ∃ h1, (m.sort_by_status sel).1.processes.get? (m.sort_by_status sel).2 = some h1 ∧
        h1.config.name = h0.config.name) ∧
    (m.processes.length ≤ sel → (m.sort_by_status sel).2 = 0) := by
  refine ⟨?_, ?_, ?_, ?_⟩
  · intro hs
    rw [sort_by_status_processes]
    exact hs.insertionSort_eq
  · rw [sort_by_status_processes, sort_by_status_processes]
    exact (List.sorted_insertionSort statusLe m.processes).insertionSort_eq
  · intro h0 hsel
    have hnonempty : m.processes.isEmpty = false := by
      cases hl : m.processes with
      | nil => rw [hl] at hsel; cases hsel
      | cons a t => rfl
    have hmem : h0 ∈ m.processes := List.get?_mem hsel
    have hmem2 : h0 ∈ List.insertionSort statusLe m.processes :=
      (List.mem_insertionSort statusLe).mpr hmem
    have hps : (listPosition (fun x => decide (x.config.name = h0.config.name))
        (List.insertionSort statusLe m.processes)).isSome = true :=
      listPosition_isSome _ _ h0 hmem2 (by simp)
    obtain ⟨i, hi⟩ := Option.isSome_iff_exists.mp hps
    obtain ⟨h1, hh1, hph1⟩ := listPosition_spec _ _ i hi
    refine ⟨h1, ?_, of_decide_eq_true hph1⟩
    unfold ProcessManager.sort_by_status
    rw [if_neg (by simp [hnonempty])]
    simp only [hsel, Option.map_some', Option.some_bind, hi, Option.getD_some]
    exact hh1
  · intro hle
    unfold ProcessManager.sort_by_status
    by_cases he : m.processes.isEmpty = true
    · rw [if_pos he]
    · rw [if_neg he]
      have hnone : m.processes.get? sel = none := List.get?_eq_none.mpr hle
      have hnone2 : m.processes[sel]? = none := by
        rw [← List.get?_eq_getElem?]; exact hnone
      simp [hnone, hnone2]

/-- A stopped handle named "db" with no live resources. -/
def dbStoppedHandle : ProcessHandle :=
  { config := { sampleConfig with name := "db" }, status := ProcessStatus.Stopped 0,
    screen := TerminalScreen.new 24 80 10000, child := none, master_pty := none,
    output_rx := none, reader_thread := none }

/-- C6 witness: on a concrete already-sorted manager, sorting changes nothing,
the selected name is found again, and an out-of-range selection yields 0. -/
theorem sort_by_status_spec_witness :
    ((ProcessManager.mk [runningHandle, dbStoppedHandle]).sort_by_status 0).1.processes =
      (ProcessManager.mk [runningHandle, dbStoppedHandle]).processes ∧
    (∃ h1, ((ProcessManager.mk [runningHandle, dbStoppedHandle]).sort_by_status
          1).1.processes.get?
        ((ProcessManager.mk [runningHandle, dbStoppedHandle]).sort_by_status 1).2 = some h1 ∧
      h1.config.name = dbStoppedHandle.config.name) ∧
    ((ProcessManager.mk [runningHandle, dbStoppedHandle]).sort_by_status 5).2 = 0 :=
  ⟨(sort_by_status_spec (ProcessManager.mk [runningHandle, dbStoppedHandle]) 0 0).1
      (by decide),
    (sort_by_status_spec (ProcessManager.mk [runningHandle, dbStoppedHandle]) 1 0).2.2.1
      dbStoppedHandle (by decide),
    (sort_by_status_spec (ProcessManager.mk [runningHandle, dbStoppedHandle]) 5 0).2.2.2
      (by decide)⟩
